import Mathlib

/-!
Verification of the nova-tag gate-control core: a shallow embedding of the
TypeScript sources (`src/core/tag-validator.ts`, which contains both the
`TagValidator` class and the `AntennaManager` class, and
`src/core/gate-controller.ts` with the `GateController` class), together
with theorems about the tag-authorization cache, the gate state machine,
the connection supervisor and the tag-extraction slice rule.

Conventions of the embedding:
  * JavaScript `Date` values become `Nat` millisecond timestamps.
  * The insertion-ordered JS `Map` becomes an association list
    (`List (String × TagCache)`): `Map.set` on an existing key updates the
    entry in place keeping its position, `Map.set` on a fresh key appends,
    `Map.keys().next().value` is the first key, `Map.delete` removes the
    entry with that key.
  * `async` functions that can only resolve become plain functions; the
    outcome of an awaited external HTTP call is passed in as an explicit
    oracle value (`ApiOutcome`, `RegisterOutcome`).
  * Exceptions become `Except String` values; a `try/catch` becomes a
    `match` on the `Except`.
  * Writes to the TCP socket are logged in a `sent : List String` field
    (the hex rendering of the command buffer); a destroyed socket makes
    `sendCommand` throw, which the callers catch.
-/

/-! ## TagValidator (src/core/tag-validator.ts, class TagValidator) -/

/-- A character the sanitizer keeps: the regex class `[^a-fA-F0-9]` is
stripped, so exactly ASCII hex digits (either case) survive. -/
def isHexChar (c : Char) : Bool :=
  (decide ('0' ≤ c) && decide (c ≤ '9')) ||
  (decide ('a' ≤ c) && decide (c ≤ 'f')) ||
  (decide ('A' ≤ c) && decide (c ≤ 'F'))

/-- `sanitizeTag` (lines 120-122): `tag.replace(/[^a-fA-F0-9]/g, '').toUpperCase()`. -/
def sanitizeTag (tag : String) : String :=
  String.mk ((tag.data.filter isHexChar).map Char.toUpper)

/-- A character matched by the class `[A-F0-9]` of the format regex. -/
def isUpperHexChar (c : Char) : Bool :=
  (decide ('0' ≤ c) && decide (c ≤ '9')) || (decide ('A' ≤ c) && decide (c ≤ 'F'))

/-- `isValidTagFormat` (lines 129-132): `/^[A-F0-9]{8,16}$/.test(tag) && tag.length % 2 === 0`. -/
def isValidTagFormat (tag : String) : Bool :=
  (decide (8 ≤ tag.length) && decide (tag.length ≤ 16) && tag.data.all isUpperHexChar) &&
    (tag.length % 2 == 0)

/-- One entry of the validation cache: the `TagCache` interface
`{tag, validatedAt, isValid}` (lines 22-26). -/
structure TagCache where
  tag : String
  validatedAt : Nat
  isValid : Bool
deriving DecidableEq, Repr

/-- The `tagCache : Map<string, TagCache>` field as an insertion-ordered
association list. -/
abbrev TagCacheMap := List (String × TagCache)

/-- The `ValidationResult` interface `{isValid, tag, reason?, timestamp}`
(lines 12-17). -/
structure ValidationResult where
  isValid : Bool
  tag : String
  reason : Option String
  timestamp : Nat
deriving DecidableEq, Repr

/-- `Map.get`: the entry stored under a key, if any. -/
def mapGet (m : TagCacheMap) (k : String) : Option TagCache :=
  (m.find? (fun p => p.1 == k)).map (fun p => p.2)

/-- `Map.set`: update in place when the key is present (keeping its
insertion position), append otherwise. -/
def mapSet (m : TagCacheMap) (k : String) (v : TagCache) : TagCacheMap :=
  if m.any (fun p => p.1 == k) then
    m.map (fun p => if p.1 == k then (k, v) else p)
  else
    m ++ [(k, v)]

/-- `Map.delete`: remove the entry with the given key. -/
def mapDelete (m : TagCacheMap) (k : String) : TagCacheMap :=
  m.eraseP (fun p => p.1 == k)

/-- `Map.keys().next().value`: the first (oldest-inserted) key. -/
def firstKey? (m : TagCacheMap) : Option String :=
  match m with
  | [] => none
  | (k, _) :: _ => some k

/-- `getCachedValidation` (lines 139-155): a live entry is returned, an
expired one is deleted from the cache and `null` is returned. The JS
`now.getTime() - cached.validatedAt.getTime()` is an integer that is only
compared with `> cacheTimeout`; truncated `Nat` subtraction agrees with it
on that comparison (a negative age is not `> cacheTimeout` either). -/
def getCachedValidation (m : TagCacheMap) (tag : String) (now cacheTimeout : Nat) :
    Option TagCache × TagCacheMap :=
  match mapGet m tag with
  | none => (none, m)
  | some cached =>
    if now - cached.validatedAt > cacheTimeout then (none, mapDelete m tag)
    else (some cached, m)

/-- The outcome of the awaited `fetch` in `validateViaAPI`, passed in as an
oracle: an HTTP-ok JSON response `{authorized, reason?}`, a non-2xx status
(`response.ok` false), the `AbortController` timeout, or a transport error. -/
inductive ApiOutcome where
  | success (authorized : Bool) (reason : Option String)
  | httpError (status : Nat) (statusText : String)
  | timeout
  | transportError (msg : String)
deriving DecidableEq, Repr

/-- `validateViaAPI` (lines 162-201): an ok response yields a
`ValidationResult` with `isValid = (data.authorized === true)`; a non-ok
status throws `API error: ...`; an abort throws `Timeout na consulta à API`;
any other error is rethrown. JS `data.reason || '...'` treats the empty
string as falsy, hence the `isEmpty` test. -/
def validateViaAPI (tag : String) (api : ApiOutcome) (now : Nat) :
    Except String ValidationResult :=
  match api with
  | .success authorized reason =>
    .ok { isValid := authorized
          tag := tag
          reason := some (if authorized then "TAG autorizada pela API"
                          else match reason with
                               | some r => if r.isEmpty then "TAG não autorizada" else r
                               | none => "TAG não autorizada")
          timestamp := now }
  | .httpError status statusText => .error ("API error: " ++ toString status ++ " " ++ statusText)
  | .timeout => .error "Timeout na consulta à API"
  | .transportError msg => .error msg

/-- `updateCache` (lines 208-222): `set` the entry, then if the map holds
more than 100 entries delete the first key. -/
def updateCache (m : TagCacheMap) (tag : String) (isValid : Bool) (now : Nat) : TagCacheMap :=
  let m' := mapSet m tag { tag := tag, validatedAt := now, isValid := isValid }
  if m'.length > 100 then
    match firstKey? m' with
    | some oldestKey => mapDelete m' oldestKey
    | none => m'
  else m'

/-- What one call of `validateTag` produces: the returned result, the cache
it leaves behind, and whether the external service was contacted. -/
structure ValidateOutcome where
  result : ValidationResult
  cache : TagCacheMap
  called : Bool
deriving DecidableEq, Repr

/-- `validateTag` (lines 58-113): sanitize, reject bad formats, serve from
cache, otherwise call the API; only an API call that returns (ok status,
parsed body) reaches `updateCache` — a thrown timeout / transport / non-ok
error is caught by the outer `catch`, which returns a failed result with
the raw (unsanitized) tag and leaves the cache as it was. -/
def validateTag (cacheTimeout : Nat) (m : TagCacheMap) (tag : String) (now : Nat)
    (api : ApiOutcome) : ValidateOutcome :=
  let sanitizedTag := sanitizeTag tag
  if isValidTagFormat sanitizedTag = false then
    { result := { isValid := false, tag := sanitizedTag,
                  reason := some "Formato de TAG inválido", timestamp := now }
      cache := m, called := false }
  else
    match getCachedValidation m sanitizedTag now cacheTimeout with
    | (some cachedResult, m') =>
      { result := { isValid := cachedResult.isValid, tag := sanitizedTag,
                    reason := some (if cachedResult.isValid then "Cache hit - válida"
                                    else "Cache hit - inválida"),
                    timestamp := now }
        cache := m', called := false }
    | (none, m') =>
      match validateViaAPI sanitizedTag api now with
      | .ok apiResult =>
        { result := apiResult
          cache := updateCache m' sanitizedTag apiResult.isValid now
          called := true }
      | .error msg =>
        { result := { isValid := false, tag := tag,
                      reason := some ("Erro na validação: " ++ msg), timestamp := now }
          cache := m', called := true }

/-- The outcome of the awaited `fetch` in `registerAccess`: a response with
some HTTP status, or a transport error. -/
inductive RegisterOutcome where
  | response (status : Nat)
  | transportError (msg : String)
deriving DecidableEq, Repr

/-- `response.ok`: status in the 2xx range. -/
def responseOk (status : Nat) : Bool := decide (200 ≤ status) && decide (status < 300)

/-- `registerAccess` (lines 230-262): `true` on an ok response, `false` on a
non-ok status (logged) and `false` on any thrown transport error (caught);
the body never touches `tagCache` or any gate state. -/
def registerAccess (out : RegisterOutcome) : Bool :=
  match out with
  | .response status => if responseOk status then true else false
  | .transportError _ => false

/-! ## GateController (src/core/gate-controller.ts) -/

/-- The command constants of `antenna-manager.ts` (lines 356-358), hex
renderings of the `Buffer` literals. -/
def HEALTHCHECK_CMD : String := "CFFF0050000726"

/-- The relay-open command buffer, `CFFF007702020AF27C`. -/
def RELAY_OPEN_CMD : String := "CFFF007702020AF27C"

/-- The relay-close command buffer, `CFFF0077020100774E`. -/
def RELAY_CLOSE_CMD : String := "CFFF0077020100774E"

/-- The `GateState` enum of `gate-controller.ts` (lines 7-12). -/
inductive GateState where
  | CLOSED
  | OPENING
  | OPEN
  | CLOSING
deriving DecidableEq, Repr

/-- The mutable state of one `GateController` instance (lines 28-47).
`openTimer` models the `setTimeout` handle armed by `openGate`: the pair
(time it was armed, delay in ms), so it fires at their sum. `settleTimer`
models the 1s `setTimeout` of `closeGate` by its firing time. `sent` logs
every frame written to the socket, in order. -/
structure GateController where
  state : GateState
  openTimer : Option (Nat × Nat)
  settleTimer : Option Nat
  openDurationMs : Nat
  socketDestroyed : Bool
  sent : List String
deriving DecidableEq, Repr

/-- `sendCommand` (lines 124-130): throws (`none`) when the socket is
destroyed, otherwise writes the frame. -/
def sendCommand (gc : GateController) (cmd : String) : Option GateController :=
  if gc.socketDestroyed then none
  else some { gc with sent := gc.sent ++ [cmd] }

/-- `openGate` (lines 61-85): rejected (`false`, nothing changes) unless the
state is CLOSED; otherwise send the relay-open frame, pass through OPENING,
arm the auto-close timer for `autoCloseTime ?? openDurationMs`, end in OPEN
and return `true`. A throwing `sendCommand` is caught and yields `false`
with the state untouched. -/
def openGate (gc : GateController) (now : Nat) (autoCloseTime : Option Nat) :
    Bool × GateController :=
  if gc.state ≠ GateState.CLOSED then (false, gc)
  else
    match sendCommand gc RELAY_OPEN_CMD with
    | none => (false, gc)
    | some gc₁ =>
      let gc₂ := { gc₁ with state := GateState.OPENING }
      let gc₃ := { gc₂ with openTimer := some (now, autoCloseTime.getD gc.openDurationMs) }
      (true, { gc₃ with state := GateState.OPEN })

/-- `closeGate` (lines 91-118): rejected (`false`, nothing changes) unless
the state is OPEN; otherwise send the relay-close frame, move to CLOSING,
schedule the 1s settle to CLOSED, clear the auto-close timer and return
`true`. -/
def closeGate (gc : GateController) (now : Nat) : Bool × GateController :=
  if gc.state ≠ GateState.OPEN then (false, gc)
  else
    match sendCommand gc RELAY_CLOSE_CMD with
    | none => (false, gc)
    | some gc₁ =>
      let gc₂ := { gc₁ with state := GateState.CLOSING, settleTimer := some (now + 1000) }
      (true, { gc₂ with openTimer := none })

/-- When the auto-close timer armed by `openGate` will fire (its callback
invokes `closeGate`). -/
def autoCloseAt (gc : GateController) : Option Nat :=
  gc.openTimer.map (fun p => p.1 + p.2)

/-- `registerAccess` run against the state it has in scope (the instance's
`tagCache`, and — through the `GateController` the caller holds — the gate
state): the body only builds the request payload from its arguments and the
environment and inspects the response, so the state passes through
untouched. -/
def registerAccessStateful (m : TagCacheMap) (gc : GateController) (out : RegisterOutcome) :
    Bool × TagCacheMap × GateController :=
  (registerAccess out, m, gc)

/-! ## AntennaManager (src/core/tag-validator.ts, lines 315-621): the
connection supervisor's module-level state and socket event handlers. -/

/-- The module-level `GateState` enum of `antenna-manager.ts` (lines
341-346). It is a distinct declaration from the `GateState` of
`gate-controller.ts`; the module-level variable `gateState` below ranges
over it. -/
inductive SupGateState where
  | CLOSED
  | OPENING
  | OPEN
  | CLOSING
deriving DecidableEq, Repr

/-- The module-level mutable variables of `antenna-manager.ts` (lines
362-367) plus observation fields: `socketDestroyed` (the socket handle was
destroyed), `terminated` (`process.exit(1)` ran), `reconnectsScheduled`
(how many reconnect `setTimeout`s were ever armed) and `sent` (frames
written on this socket). `closeGateTimeout` is the vestigial module-level
timer handle, cleared on connect and close but never armed in this
version. -/
structure SupState where
  healthCheckWaitResponse : Bool
  gateState : SupGateState
  closeGateTimeout : Option Nat
  isReconnecting : Bool
  connectionRetry : Nat
  socketDestroyed : Bool
  terminated : Bool
  reconnectsScheduled : Nat
  sent : List String
deriving DecidableEq, Repr

/-- JS `String.prototype.startsWith`. -/
def strStartsWith (s pat : String) : Bool :=
  pat.data.isPrefixOf s.data

/-- The `connect` callback (lines 410-435): reset the healthcheck flag, the
module-level gate state and the reconnect flag, clear the stale close
timer, then send the relay-close sync command and — after the 1s settle
delay — the configured read-filter command. The retry counter is *not*
touched here. -/
def onConnect (s : SupState) (filterCmd : String) : SupState :=
  { s with healthCheckWaitResponse := false
           gateState := SupGateState.CLOSED
           isReconnecting := false
           closeGateTimeout := none
           sent := s.sent ++ [RELAY_CLOSE_CMD, filterCmd] }

/-- The `data` handler (lines 438-494): every delivery zeroes
`connectionRetry` and clears the pending-healthcheck flag, then the frame
is classified by hex prefix: healthcheck ack; filter ack (wrong sub-code
destroys the socket); gate-closed ack (module gate state := CLOSED);
gate-opened ack; tag read (dispatched to `handleTagRead`, modelled
separately); anything else ignored. -/
def onData (s : SupState) (hexData : String) : SupState :=
  let s := { s with connectionRetry := 0, healthCheckWaitResponse := false }
  if strStartsWith hexData "cf000050" then s
  else if strStartsWith hexData "cf000073" then
    if strStartsWith hexData "cf000073020001" then s
    else { s with socketDestroyed := true }
  else if strStartsWith hexData "cf000077020001" then
    { s with gateState := SupGateState.CLOSED }
  else if strStartsWith hexData "cf00007703" then s
  else if strStartsWith hexData "cf00000112" then s
  else s

/-- The `timeout` handler (lines 497-523): if the module-level `gateState`
is OPEN, destroy the socket; else if a healthcheck is already pending,
destroy; else write the healthcheck frame and set the pending flag
(`writeOk` is whether the socket write succeeded — a write error destroys
the socket instead). The 3s grace timer it arms is `onHealthcheckGrace`. -/
def onTimeout (s : SupState) (writeOk : Bool) : SupState :=
  if s.gateState = SupGateState.OPEN then { s with socketDestroyed := true }
  else if s.healthCheckWaitResponse then { s with socketDestroyed := true }
  else if writeOk then
    { s with sent := s.sent ++ [HEALTHCHECK_CMD], healthCheckWaitResponse := true }
  else { s with socketDestroyed := true }

/-- The 3s secondary timer armed after a healthcheck send (lines 516-521):
destroy the socket if the healthcheck is still unanswered. -/
def onHealthcheckGrace (s : SupState) : SupState :=
  if s.healthCheckWaitResponse then { s with socketDestroyed := true } else s

/-- The `close` handler (lines 526-546): with the retry counter already
above the maximum (`ATTEMPT_RECONNECT`, default 3), `process.exit(1)`;
otherwise, when no reconnect is in flight, clear the stale close timer,
increment the counter and schedule a reconnect after 3s. -/
def onClose (s : SupState) (maxRetry : Nat) : SupState :=
  if s.connectionRetry > maxRetry then { s with terminated := true }
  else if s.isReconnecting then s
  else { s with isReconnecting := true
                closeGateTimeout := none
                connectionRetry := s.connectionRetry + 1
                reconnectsScheduled := s.reconnectsScheduled + 1 }

/-- The socket events the supervisor reacts to. -/
inductive SupEvent where
  | connect (filterCmd : String)
  | data (hexData : String)
  | timeout (writeOk : Bool)
  | grace
  | close
deriving DecidableEq, Repr

/-- One supervisor step: a terminated process (after `process.exit(1)`)
takes no further steps. -/
def supStep (maxRetry : Nat) (e : SupEvent) (s : SupState) : SupState :=
  if s.terminated then s
  else
    match e with
    | .connect f => onConnect s f
    | .data h => onData s h
    | .timeout w => onTimeout s w
    | .grace => onHealthcheckGrace s
    | .close => onClose s maxRetry

/-- The combined state the tag-read and timeout paths cross: the
supervisor's module-level variables and the `GateController` instance the
supervisor constructed on connect. -/
structure Sys where
  sup : SupState
  gc : GateController
deriving DecidableEq, Repr

/-- `handleTagRead` (lines 610-620): validate the tag; when valid, register
the access (`registerAccess` — its boolean is discarded and it touches no
state) and call `gateController.openGate()` with no arguments. The
supervisor's own module-level `gateState` is not touched on this path. -/
def handleTagRead (cacheTimeout : Nat) (sys : Sys) (m : TagCacheMap) (tagNumber : String)
    (now : Nat) (api : ApiOutcome) (reg : RegisterOutcome) : TagCacheMap × Sys :=
  let v := validateTag cacheTimeout m tagNumber now api
  if v.result.isValid then
    let _registered := registerAccess reg
    (v.cache, { sys with gc := (openGate sys.gc now none).2 })
  else (v.cache, sys)

/-- The idle-timeout event on the combined state: the handler reads only
the supervisor's module-level variables. -/
def sysOnTimeout (sys : Sys) (writeOk : Bool) : Sys :=
  { sys with sup := onTimeout sys.sup writeOk }

/-! ## Frame codec: the tag-read extraction (lines 480-488) -/

/-- JS `String.prototype.slice(start, end)`: negative indices count from
the end, indices are clamped to `[0, length]`, and the result is empty when
the clamped start is not before the clamped end. -/
def jsSlice (s : String) (start stop : Int) : String :=
  let len : Int := s.data.length
  let startIdx : Int := if start < 0 then max (len + start) 0 else min start len
  let stopIdx : Int := if stop < 0 then max (len + stop) 0 else min stop len
  String.mk ((s.data.drop startIdx.toNat).take (stopIdx.toNat - startIdx.toNat))

/-- Line 481: `const tagNumber = "0" + hexData.slice(-13, -4)`. -/
def extractTagNumber (hexData : String) : String :=
  "0" ++ jsSlice hexData (-13) (-4)

/-! ## Concrete states used by the scenario theorems -/

/-- The module-level variables as initialised at module load (lines 362-367). -/
def supInit : SupState :=
  { healthCheckWaitResponse := false
    gateState := SupGateState.CLOSED
    closeGateTimeout := none
    isReconnecting := false
    connectionRetry := 0
    socketDestroyed := false
    terminated := false
    reconnectsScheduled := 0
    sent := [] }

/-- The supervisor state right after a successful connect (empty configured
filter payload). -/
def supConnected : SupState := onConnect supInit ""

/-- A freshly constructed `GateController` on a live socket, with the
5000 ms `GATE_TIMEOUT_TO_CLOSE` default the supervisor passes (line 404). -/
def gcConnected : GateController :=
  { state := GateState.CLOSED
    openTimer := none
    settleTimer := none
    openDurationMs := 5000
    socketDestroyed := false
    sent := [] }

/-! ## Claim theorems -/

/-- C1: `openGate` returns `false` and changes nothing (no relay write)
whenever the state is not CLOSED; from CLOSED on a live socket it writes
the relay-open frame, ends in state OPEN with the auto-close timer armed
for the overridden (`autoCloseTime`) or configured (`openDurationMs`)
duration, and returns `true`; and `closeGate` returns `false` and changes
nothing whenever the state is not OPEN. -/
theorem openGate_closeGate_guarded_transitions :
    ∀ (gc : GateController) (now : Nat) (autoCloseTime : Option Nat),
      (gc.state ≠ GateState.CLOSED → openGate gc now autoCloseTime = (false, gc)) ∧
      (gc.state = GateState.CLOSED → gc.socketDestroyed = false →
        openGate gc now autoCloseTime =
          (true, { gc with state := GateState.OPEN
                           openTimer := some (now, autoCloseTime.getD gc.openDurationMs)
                           sent := gc.sent ++ [RELAY_OPEN_CMD] })) ∧
      (gc.state ≠ GateState.OPEN → closeGate gc now = (false, gc)) := by
  intro gc now autoCloseTime
  obtain ⟨st, ot, stt, od, sd, snt⟩ := gc
  refine ⟨fun h => ?_, fun h hd => ?_, fun h => ?_⟩
  · simp only at h
    simp [openGate, h]
  · simp only at h hd
    subst h; subst hd
    simp [openGate, sendCommand]
  · simp only at h
    simp [closeGate, h]

/-- C2 (the code at the failing input): with the gate opened at time 0 for
the default 5000 ms and the opening tag `0012345678` live in the cache,
re-presenting that same tag at time 2000 (while the state is OPEN and
before the timer fires) leaves the `GateController` — in particular its
auto-close timer — completely unchanged: `openGate` is rejected because the
state is not CLOSED, so the gate still auto-closes at time 5000 (original
open time + duration), not at 7000 as a re-armed timer would. -/
theorem handleTagRead_represented_tag_leaves_timer :
    (openGate gcConnected 0 none).1 = true ∧
    (openGate gcConnected 0 none).2.state = GateState.OPEN ∧
    autoCloseAt (openGate gcConnected 0 none).2 = some 5000 ∧
    (handleTagRead 300000 ⟨supConnected, (openGate gcConnected 0 none).2⟩
        [("0012345678", { tag := "0012345678", validatedAt := 0, isValid := true })]
        "0012345678" 2000 (ApiOutcome.success true none) (RegisterOutcome.response 200)).2.gc =
      (openGate gcConnected 0 none).2 ∧
    autoCloseAt (handleTagRead 300000 ⟨supConnected, (openGate gcConnected 0 none).2⟩
        [("0012345678", { tag := "0012345678", validatedAt := 0, isValid := true })]
        "0012345678" 2000 (ApiOutcome.success true none) (RegisterOutcome.response 200)).2.gc =
      some 5000 := by
  decide

/-- C4: any input whose sanitized form fails the 8-16 upper-hex, even-length
format test is returned invalid with the bad-format reason, with the cache
untouched and no external call. -/
theorem validateTag_rejects_bad_format (cacheTimeout : Nat) (m : TagCacheMap)
    (raw : String) (now : Nat) (api : ApiOutcome)
    (h : isValidTagFormat (sanitizeTag raw) = false) :
    validateTag cacheTimeout m raw now api =
      { result := { isValid := false, tag := sanitizeTag raw,
                    reason := some "Formato de TAG inválido", timestamp := now }
        cache := m, called := false } := by
  simp [validateTag, h]

/-- C4 witness: `"12-34!"` sanitizes to `"1234"` (4 hex characters, under
the 8-character minimum), so `validateTag` rejects it without an external
call. -/
theorem validateTag_rejects_bad_format_witness :
    validateTag 300000 [] "12-34!" 7 ApiOutcome.timeout =
      { result := { isValid := false, tag := "1234",
                    reason := some "Formato de TAG inválido", timestamp := 7 }
        cache := [], called := false } :=
  validateTag_rejects_bad_format 300000 [] "12-34!" 7 ApiOutcome.timeout (by decide)

/-- C9 (the code at the failing input): from a freshly connected system,
`openGate` is accepted (relay-open written, controller state OPEN), yet the
supervisor's module-level `gateState` — the only variable the idle-timeout
handler inspects — is still CLOSED, because nothing in this version ever
assigns it OPEN. The idle timeout therefore does not destroy the socket: it
sends a healthcheck instead. -/
theorem stuck_open_gate_timeout_sends_healthcheck :
    (openGate gcConnected 0 none).1 = true ∧
    (openGate gcConnected 0 none).2.state = GateState.OPEN ∧
    supConnected.gateState = SupGateState.CLOSED ∧
    (sysOnTimeout ⟨supConnected, (openGate gcConnected 0 none).2⟩ true).sup.socketDestroyed
      = false ∧
    (sysOnTimeout ⟨supConnected, (openGate gcConnected 0 none).2⟩ true).sup.sent
      = supConnected.sent ++ [HEALTHCHECK_CMD] := by
  decide

/-- C10: `registerAccess` always returns a boolean — `true` exactly when the
external registration call completed with a 2xx (`response.ok`) status,
`false` on any non-ok status or transport error — and its body mentions
neither the tag cache nor any gate state, so both are left as they were. -/
theorem registerAccess_boolean_and_frame :
    ∀ (m : TagCacheMap) (gc : GateController) (out : RegisterOutcome),
      ((registerAccessStateful m gc out).1 = true ↔
        ∃ status, out = RegisterOutcome.response status ∧ responseOk status = true) ∧
      (registerAccessStateful m gc out).2.1 = m ∧
      (registerAccessStateful m gc out).2.2 = gc := by
  intro m gc out
  refine ⟨?_, rfl, rfl⟩
  cases out with
  | response status =>
    constructor
    · intro h
      refine ⟨status, rfl, ?_⟩
      by_cases hok : responseOk status = true
      · exact hok
      · simp [registerAccessStateful, registerAccess, hok] at h
    · rintro ⟨s, hs, hok⟩
      cases hs
      simp [registerAccessStateful, registerAccess, hok]
  | transportError msg =>
    constructor
    · intro h
      simp [registerAccessStateful, registerAccess] at h
    · rintro ⟨s, hs, _⟩
      cases hs

/-- C7 counterexample: with the retry counter at 2, a successful connect
leaves it at 2 — the counter is *not* reset by the connect callback — while
a `data` delivery (here a healthcheck ack) is what resets it to 0. This
refutes "resets to zero only on a successful connect" at a concrete
state. -/
theorem connectionRetry_reset_on_data_not_connect :
    (onConnect
        { healthCheckWaitResponse := false, gateState := SupGateState.CLOSED
          closeGateTimeout := none, isReconnecting := true, connectionRetry := 2
          socketDestroyed := false, terminated := false, reconnectsScheduled := 2
          sent := [] } "").connectionRetry = 2 ∧
    (onData
        { healthCheckWaitResponse := false, gateState := SupGateState.CLOSED
          closeGateTimeout := none, isReconnecting := true, connectionRetry := 2
          socketDestroyed := false, terminated := false, reconnectsScheduled := 2
          sent := [] } "cf000050aa").connectionRetry = 0 := by
  decide

/-- C7 as amended: the retry counter increments exactly on a close event
that schedules a reconnect; a close arriving while a reconnect is already
in flight (counter not yet above the maximum) is a complete no-op — it
neither increments nor schedules; the counter resets to zero whenever data
is received from the antenna, while a successful connect by itself leaves
it unchanged; a close event arriving with the counter already above the
configured maximum terminates the process without scheduling a reconnect;
and a terminated process takes no further steps. -/
theorem connectionRetry_discipline :
    ∀ (s : SupState) (maxRetry : Nat) (hexData filterCmd : String) (e : SupEvent),
      ((onConnect s filterCmd).connectionRetry = s.connectionRetry) ∧
      ((onData s hexData).connectionRetry = 0) ∧
      (s.connectionRetry ≤ maxRetry → s.isReconnecting = false →
        (onClose s maxRetry).connectionRetry = s.connectionRetry + 1 ∧
        (onClose s maxRetry).reconnectsScheduled = s.reconnectsScheduled + 1 ∧
        (onClose s maxRetry).terminated = s.terminated) ∧
      (s.connectionRetry ≤ maxRetry → s.isReconnecting = true →
        onClose s maxRetry = s) ∧
      (s.connectionRetry > maxRetry →
        (onClose s maxRetry).terminated = true ∧
        (onClose s maxRetry).reconnectsScheduled = s.reconnectsScheduled ∧
        (onClose s maxRetry).connectionRetry = s.connectionRetry) ∧
      (s.terminated = true → supStep maxRetry e s = s) := by
  intro s maxRetry hexData filterCmd e
  refine ⟨rfl, ?_, fun hle hrec => ?_, fun hle hrec => ?_, fun hgt => ?_, fun hterm => ?_⟩
  · simp only [onData]
    repeat' split
    all_goals rfl
  · have hnot : ¬ s.connectionRetry > maxRetry := Nat.not_lt.mpr hle
    simp [onClose, hnot, hrec]
  · have hnot : ¬ s.connectionRetry > maxRetry := Nat.not_lt.mpr hle
    simp [onClose, hnot, hrec]
  · simp [onClose, hgt]
  · simp [supStep, hterm]

/-- C8: an idle-timeout firing with the gate not OPEN and no healthcheck
pending does not destroy the socket — it sends the healthcheck frame and
sets the pending flag; a second firing with the healthcheck still pending
(no intervening data, which would have cleared the flag) destroys the
socket. So the socket dies on the second firing, not the first. -/
theorem idle_timeout_second_firing_destroys (s : SupState)
    (hgate : s.gateState ≠ SupGateState.OPEN)
    (hpending : s.healthCheckWaitResponse = false)
    (hlive : s.socketDestroyed = false) :
    (onTimeout s true).socketDestroyed = false ∧
    (onTimeout s true).healthCheckWaitResponse = true ∧
    (onTimeout s true).sent = s.sent ++ [HEALTHCHECK_CMD] ∧
    (onTimeout (onTimeout s true) true).socketDestroyed = true := by
  have h₁ : onTimeout s true =
      { s with sent := s.sent ++ [HEALTHCHECK_CMD], healthCheckWaitResponse := true } := by
    simp [onTimeout, hgate, hpending]
  refine ⟨?_, ?_, ?_, ?_⟩
  · rw [h₁]; exact hlive
  · rw [h₁]
  · rw [h₁]
  · rw [h₁]
    simp [onTimeout, hgate]

/-- C3 counterexample: the claim says every outcome of the first call,
including a timeout, updates the cache so the second call within the TTL is
served from it. At the concrete well-formed tag `AABBCCDD` with the first
call timing out, the first call contacts the service, leaves the cache
empty, and the second call 1000 ms later (well within the 300000 ms TTL)
contacts the external service again. -/
theorem validateTag_timeout_skips_cache_update :
    (validateTag 300000 [] "AABBCCDD" 0 ApiOutcome.timeout).called = true ∧
    (validateTag 300000 [] "AABBCCDD" 0 ApiOutcome.timeout).cache = [] ∧
    (validateTag 300000 (validateTag 300000 [] "AABBCCDD" 0 ApiOutcome.timeout).cache
        "AABBCCDD" 1000 ApiOutcome.timeout).called = true := by
  decide

/-- C3 as amended: for a well-formed tag (starting from a cache without it;
the empty cache here), two calls within the TTL issue exactly one external
call only when the first call's external request completes with an HTTP-ok
response: that outcome — authorized or denied — is written to the cache and
the second call is served from it with the same verdict and no external
call. When the first call ends in a timeout, a transport error or a non-ok
status, the thrown error bypasses `updateCache`, the cache stays empty, and
a second call contacts the external service again. -/
theorem validateTag_cache_update_on_api_completion :
    ∀ (cacheTimeout : Nat) (raw : String) (t₁ t₂ : Nat) (auth : Bool)
      (rs : Option String) (api₂ : ApiOutcome),
      (isValidTagFormat (sanitizeTag raw) = true → t₂ - t₁ ≤ cacheTimeout →
        (validateTag cacheTimeout [] raw t₁ (ApiOutcome.success auth rs)).called = true ∧
        (validateTag cacheTimeout
            (validateTag cacheTimeout [] raw t₁ (ApiOutcome.success auth rs)).cache
            raw t₂ api₂).called = false ∧
        (validateTag cacheTimeout
            (validateTag cacheTimeout [] raw t₁ (ApiOutcome.success auth rs)).cache
            raw t₂ api₂).result.isValid = auth) ∧
      ((validateTag cacheTimeout [] raw t₁ ApiOutcome.timeout).cache = [] ∧
       (validateTag cacheTimeout [] raw t₁ (ApiOutcome.transportError "fetch failed")).cache
         = [] ∧
       (validateTag cacheTimeout [] raw t₁ (ApiOutcome.httpError 500 "Internal Server Error")).cache
         = [] ∧
       (isValidTagFormat (sanitizeTag raw) = true →
         (validateTag cacheTimeout [] raw t₁ ApiOutcome.timeout).called = true ∧
         (validateTag cacheTimeout
             (validateTag cacheTimeout [] raw t₁ ApiOutcome.timeout).cache
             raw t₂ ApiOutcome.timeout).called = true)) := by
  intro cacheTimeout raw t₁ t₂ auth rs api₂
  have herrcache : ∀ (api : ApiOutcome) (msg : String) (t : Nat),
      validateViaAPI (sanitizeTag raw) api t = Except.error msg →
      (validateTag cacheTimeout [] raw t api).cache = [] := by
    intro api msg t herr
    by_cases hf : isValidTagFormat (sanitizeTag raw) = false
    · simp [validateTag, hf]
    · simp [validateTag, hf, getCachedValidation, mapGet, herr]
  have herrcalled : ∀ (api : ApiOutcome) (msg : String) (t : Nat),
      isValidTagFormat (sanitizeTag raw) = true →
      validateViaAPI (sanitizeTag raw) api t = Except.error msg →
      (validateTag cacheTimeout [] raw t api).called = true := by
    intro api msg t hf herr
    simp [validateTag, hf, getCachedValidation, mapGet, herr]
  constructor
  · intro hf httl
    have h₁ : (validateTag cacheTimeout [] raw t₁ (ApiOutcome.success auth rs)).cache =
        [(sanitizeTag raw,
          { tag := sanitizeTag raw, validatedAt := t₁, isValid := auth })] ∧
        (validateTag cacheTimeout [] raw t₁ (ApiOutcome.success auth rs)).called = true := by
      simp [validateTag, hf, getCachedValidation, mapGet, validateViaAPI, updateCache,
        mapSet, firstKey?]
    have hnot : ¬ t₂ - t₁ > cacheTimeout := Nat.not_lt.mpr httl
    refine ⟨h₁.2, ?_, ?_⟩ <;>
      rw [h₁.1] <;>
      simp [validateTag, hf, getCachedValidation, mapGet, hnot]
  · refine ⟨herrcache ApiOutcome.timeout _ t₁ rfl,
      herrcache (ApiOutcome.transportError "fetch failed") _ t₁ rfl,
      herrcache (ApiOutcome.httpError 500 "Internal Server Error") _ t₁ rfl, ?_⟩
    intro hf
    refine ⟨herrcalled ApiOutcome.timeout _ t₁ hf rfl, ?_⟩
    rw [herrcache ApiOutcome.timeout _ t₁ rfl]
    exact herrcalled ApiOutcome.timeout _ t₂ hf rfl

/-- C5: `updateCache` keeps the cache within its hard capacity of 100
entries, and when inserting a fresh tag into a full cache it removes
exactly the oldest-inserted entry (the head of the insertion-ordered map)
and nothing else: the result is the old cache minus its head, with the new
entry appended. -/
theorem updateCache_capacity_and_eviction (m : TagCacheMap) (tag : String) (b : Bool)
    (now : Nat) (hcap : m.length ≤ 100) :
    (updateCache m tag b now).length ≤ 100 ∧
    (m.length = 100 → m.any (fun p => p.1 == tag) = false →
      updateCache m tag b now =
        m.drop 1 ++ [(tag, { tag := tag, validatedAt := now, isValid := b })]) := by
  have key : ∀ (k₀ : String) (v₀ : TagCache) (tl : TagCacheMap),
      ((k₀, v₀) :: tl).any (fun p => p.1 == tag) = false →
      ((k₀, v₀) :: tl).length = 100 →
      updateCache ((k₀, v₀) :: tl) tag b now =
        tl ++ [(tag, { tag := tag, validatedAt := now, isValid := b })] := by
    intro k₀ v₀ tl hfresh h100
    have hm' : mapSet ((k₀, v₀) :: tl) tag { tag := tag, validatedAt := now, isValid := b }
        = (k₀, v₀) :: (tl ++ [(tag, { tag := tag, validatedAt := now, isValid := b })]) := by
      simp [mapSet, hfresh]
    have hlen : ((k₀, v₀) :: (tl ++ [(tag, { tag := tag, validatedAt := now, isValid := b })])).length
        = 101 := by
      simp only [List.length_cons] at h100
      simp [h100]
    simp only [updateCache, hm']
    rw [if_pos (by omega)]
    simp [firstKey?, mapDelete, List.eraseP_cons]
  constructor
  · by_cases hmem : m.any (fun p => p.1 == tag) = true
    · have hlen : (mapSet m tag { tag := tag, validatedAt := now, isValid := b }).length
          = m.length := by
        simp [mapSet, hmem]
      simp only [updateCache]
      rw [if_neg (by omega)]
      omega
    · have hmem' : m.any (fun p => p.1 == tag) = false := by
        revert hmem; cases m.any (fun p => p.1 == tag) <;> simp
      have hlen : (mapSet m tag { tag := tag, validatedAt := now, isValid := b }).length
          = m.length + 1 := by
        simp [mapSet, hmem']
      by_cases hfull : m.length = 100
      · cases m with
        | nil => simp at hfull
        | cons hd tl =>
          obtain ⟨k₀, v₀⟩ := hd
          rw [key k₀ v₀ tl hmem' hfull]
          simp only [List.length_cons] at hfull
          simp [hfull]
      · simp only [updateCache]
        rw [if_neg (by omega)]
        omega
  · intro h100 hfresh
    cases m with
    | nil => simp at h100
    | cons hd tl =>
      obtain ⟨k₀, v₀⟩ := hd
      rw [key k₀ v₀ tl hfresh h100]
      simp

/-- C5 witness: a full cache of 100 distinct keys `K0`…`K99`; inserting the
fresh tag `AABBCCDD` keeps the size at 100 and evicts exactly the
oldest-inserted entry `K0`. -/
theorem updateCache_capacity_and_eviction_witness :
    (updateCache
        ((List.range 100).map (fun i =>
          ("K" ++ Nat.repr i,
           { tag := "K" ++ Nat.repr i, validatedAt := 0, isValid := true })))
        "AABBCCDD" true 5).length ≤ 100 ∧
    updateCache
        ((List.range 100).map (fun i =>
          ("K" ++ Nat.repr i,
           { tag := "K" ++ Nat.repr i, validatedAt := 0, isValid := true })))
        "AABBCCDD" true 5 =
      ((List.range 100).map (fun i =>
          ("K" ++ Nat.repr i,
           { tag := "K" ++ Nat.repr i, validatedAt := 0, isValid := true }))).drop 1 ++
        [("AABBCCDD", { tag := "AABBCCDD", validatedAt := 5, isValid := true })] := by
  have h := updateCache_capacity_and_eviction
    ((List.range 100).map (fun i =>
      ("K" ++ Nat.repr i,
       { tag := "K" ++ Nat.repr i, validatedAt := 0, isValid := true })))
    "AABBCCDD" true 5 (by simp)
  exact ⟨h.1, h.2 (by simp) (by decide)⟩

/-- Helper: `slice(start, end)` with two negative indices, when the start
clamp stays nonnegative, takes the window between `length + start` and
`length + end`. -/
theorem jsSlice_neg_neg (s : String) (a b : Int) (ha : a < 0) (hb : b < 0) :
    jsSlice s a b =
      String.mk ((s.data.drop ((s.data.length : Int) + a).toNat).take
        (((s.data.length : Int) + b).toNat - ((s.data.length : Int) + a).toNat)) := by
  unfold jsSlice
  have e₁ : (max ((s.data.length : Int) + a) 0).toNat = ((s.data.length : Int) + a).toNat := by
    omega
  have e₂ : (max ((s.data.length : Int) + b) 0).toNat = ((s.data.length : Int) + b).toNat := by
    omega
  simp only [if_pos ha, if_pos hb, e₁, e₂]

/-- C6 counterexample: the frame `cf000001120123456789abcd` carries the ten
characters `0123456789` immediately before its 4-character trailer, yet the
extracted identifier is the 10-character `0123456789` (the literal "0" plus
the *9*-character slice `123456789`), not the 11-character `00123456789`
the claim asserts: a 13-from-end/4-from-end window holds 9 characters, so
no frame has `0123456789` as that window. -/
theorem extractTagNumber_window_counterexample :
    extractTagNumber "cf000001120123456789abcd" = "0123456789" ∧
    extractTagNumber "cf000001120123456789abcd" ≠ "00123456789" := by
  decide

/-- C6 as amended: the 13-from-end/4-from-end window of a tag-read frame
holds exactly 9 hexadecimal characters; for every frame built as the prefix
`cf00000112`, any middle, a 9-character window and a 4-character trailer,
the extracted identifier is the literal digit "0" concatenated with that
9-character window (10 characters in total). -/
theorem extractTagNumber_slice_rule (rest w trailer : String)
    (hw : w.length = 9) (ht : trailer.length = 4) :
    extractTagNumber ("cf00000112" ++ rest ++ w ++ trailer) = "0" ++ w := by
  obtain ⟨r⟩ := rest
  obtain ⟨wl⟩ := w
  obtain ⟨tl⟩ := trailer
  have hw' : wl.length = 9 := hw
  have ht' : tl.length = 4 := ht
  have hdata : ("cf00000112" ++ (⟨r⟩ : String) ++ (⟨wl⟩ : String) ++ (⟨tl⟩ : String)).data
      = ("cf00000112".data ++ r) ++ (wl ++ tl) := by
    simp only [String.data_append]
    rw [List.append_assoc]
  unfold extractTagNumber
  rw [jsSlice_neg_neg _ _ _ (by norm_num) (by norm_num), hdata]
  have hL : (("cf00000112".data ++ r) ++ (wl ++ tl)).length
      = ("cf00000112".data ++ r).length + 13 := by
    simp [hw', ht']
  have e₁ : (((("cf00000112".data ++ r) ++ (wl ++ tl)).length : Int) + (-13)).toNat
      = ("cf00000112".data ++ r).length := by
    rw [hL]; omega
  have e₂ : (((("cf00000112".data ++ r) ++ (wl ++ tl)).length : Int) + (-4)).toNat
      = ("cf00000112".data ++ r).length + 9 := by
    rw [hL]; omega
  rw [e₁, e₂, Nat.add_sub_cancel_left, List.drop_left, List.take_left' hw']

/-- C6 witness: the frame `cf00000112123456789abcd` (empty middle, window
`123456789`, trailer `abcd`) yields the identifier `0123456789`. -/
theorem extractTagNumber_slice_rule_witness :
    extractTagNumber ("cf00000112" ++ "" ++ "123456789" ++ "abcd") = "0" ++ "123456789" :=
  extractTagNumber_slice_rule "" "123456789" "abcd" (by decide) (by decide)

/-- C8 witness: the two firings from the freshly connected supervisor state
(gate CLOSED, no healthcheck pending, live socket). -/
theorem idle_timeout_second_firing_destroys_witness :
    (onTimeout supConnected true).socketDestroyed = false ∧
    (onTimeout supConnected true).healthCheckWaitResponse = true ∧
    (onTimeout supConnected true).sent = supConnected.sent ++ [HEALTHCHECK_CMD] ∧
    (onTimeout (onTimeout supConnected true) true).socketDestroyed = true :=
  idle_timeout_second_firing_destroys supConnected (by decide) (by decide) (by decide)
